import Mathlib

/-!
Shallow embedding of the TestTracker repository (client, server, shared crates)
for checking its natural-language specification.

Conventions of the embedding:
* The PostgreSQL database is modelled as an explicit `DbState` record (lists of
  rows); every server operation that touches the database threads this state.
* The Argon2 password hashing library (an external crate) is modelled ideally:
  a hashed password is a `(salt, digest)` pair in which the digest stands for
  the original password, and verification succeeds exactly on that password.
* Serialization (the `ron` crate driving serde derives) is modelled at the
  level of the serde data model: a `Value` tree of named-field records and
  tagged-union variants. `chrono::NaiveDate` delegates its wire form to the
  chrono crate, so dates are an opaque leaf of `Value`.
-/

/-- Calendar date as used by `chrono::naive::NaiveDate`; only its identity
matters to the embedded code, never its arithmetic. -/
structure NaiveDate where
  year : Int
  month : Nat
  day : Nat
deriving DecidableEq, Repr

namespace Shared

/-- An error that comes from Diesel (shared/src/error.rs `DieselError`). -/
inductive DieselError where
  /-- A DB query that was meant to return something actually returned nothing. -/
  | NotFound : DieselError
  /-- A duplicate key value violates a uniqueness constraint:
  (message, details, hint). -/
  | UniqueViolation : String → Option String → Option String → DieselError
  /-- Some other error occurred. -/
  | Other : String → DieselError
deriving DecidableEq, Repr

/-- The shared error type used by both server and client
(shared/src/error.rs `Error`). -/
inductive Error where
  /-- An error occurred in accessing the database. -/
  | DatabaseError : DieselError → Error
  /-- The given password did not match. -/
  | InvalidPassword : Error
  /-- An error occurred when trying to hash the password. -/
  | HashingError : String → Error
deriving DecidableEq, Repr

/-- The relevant information about a user (shared/src/lib.rs `User`). -/
structure User where
  id : String
  username : String
deriving DecidableEq, Repr

/-- The important data of a test (shared/src/lib.rs `TestData`). -/
structure TestData where
  subject : String
  topic : Option String
  date_or_id : String
  qualification_level : Option String
  exam_board : Option String
  paper_link : Option String
  mark_scheme_link : Option String
  comments : Option String
deriving DecidableEq, Repr

/-- The important data of a completion (shared/src/lib.rs `CompletionData`). -/
structure CompletionData where
  achieved_mark : Int
  total_marks : Int
  date : Option NaiveDate
  comments : Option String
deriving DecidableEq, Repr

/-- A tuple containing a test and its completions (shared/src/lib.rs). -/
abbrev TestAndCompletions : Type := TestData × List CompletionData

end Shared

/-- A message that the client can send to the server
(shared/src/lib.rs `ClientToServerMsg`). -/
inductive ClientToServerMsg where
  /-- Authenticate a currently existing user. -/
  | Authenticate : (username : String) → (password : String) → ClientToServerMsg
  /-- Create a new user. -/
  | CreateUser : (username : String) → (password : String) → ClientToServerMsg
  /-- Get all the tests and completions for the given user. -/
  | GetTestsAndCompletions : (user_id : String) → ClientToServerMsg
deriving DecidableEq, Repr

instance exceptDecEq {ε α : Type} [DecidableEq ε] [DecidableEq α] :
    DecidableEq (Except ε α) := fun
  | .ok a, .ok b =>
    match decEq a b with
    | isTrue h => isTrue (h ▸ rfl)
    | isFalse h => isFalse (fun hh => h (Except.ok.inj hh))
  | .ok _, .error _ => isFalse (fun h => Except.noConfusion h)
  | .error _, .ok _ => isFalse (fun h => Except.noConfusion h)
  | .error e, .error f =>
    match decEq e f with
    | isTrue h => isTrue (h ▸ rfl)
    | isFalse h => isFalse (fun hh => h (Except.error.inj hh))

/-- A message that the server can send to the client
(shared/src/lib.rs `ServerToClientMsg`). `Result<T, E>` is embedded as
`Except E T` (`Ok` is `Except.ok`, `Err` is `Except.error`). -/
inductive ServerToClientMsg where
  /-- A response to authentication. -/
  | AuthenticationResponse : Except Shared.Error Shared.User → ServerToClientMsg
  /-- All the tests of the requested user with the completions of each. -/
  | TestsAndCompletionsForUser :
      Except Shared.Error (List Shared.TestAndCompletions) → ServerToClientMsg
deriving DecidableEq

/-- A password hash as produced by the Argon2 library. The library is external
to the repository; the model idealizes it: the PHC string stores the salt and
a digest that verification compares against the supplied password. -/
structure HashedPassword where
  salt : String
  digest : String
deriving DecidableEq, Repr

/-- Error type of the `password_hash` crate (`argon2::password_hash::Error`),
restricted to the shapes the embedded code distinguishes: `Error::Password`
(verification mismatch) against everything else. -/
inductive PwHashError where
  /-- Password verification failed (`password_hash::Error::Password`). -/
  | Password : PwHashError
  /-- Any other hashing-library error. -/
  | OtherHashErr : String → PwHashError
deriving DecidableEq, Repr

/-- Debug/Display rendering of a `PwHashError`, standing in for Rust's
`format!` of the library error. The exact text is irrelevant to the embedded
claims; only which `SharedError` variant carries it matters. -/
def formatPwHashError : PwHashError → String
  | .Password => "invalid password (Password)"
  | .OtherHashErr s => s

/-- Subset of `diesel::result::Error` the server code distinguishes
(see shared/src/error.rs, `From<diesel::result::Error> for DieselError`). -/
inductive DbError where
  /-- Embeds `diesel::result::Error::NotFound`. -/
  | NotFound : DbError
  /-- Embeds `DatabaseError(UniqueViolation, info)` with (message, details, hint). -/
  | UniqueViolation : String → Option String → Option String → DbError
  /-- Any other diesel error, carried as its debug rendering. -/
  | OtherDbErr : String → DbError
deriving DecidableEq, Repr

/-- Embeds `From<diesel::result::Error> for DieselError` (shared/src/error.rs). -/
def dieselErrorFromDb : DbError → Shared.DieselError
  | .NotFound => .NotFound
  | .UniqueViolation message details hint => .UniqueViolation message details hint
  | .OtherDbErr s => .Other s

/-- Row of the `users` table (server/src/db/models.rs `User`). -/
structure DbUser where
  id : String
  username : String
  hashed_password : HashedPassword
deriving DecidableEq, Repr

/-- Insertable row for `users` (server/src/db/models.rs `NewUser`). -/
structure NewUser where
  username : String
  hashed_password : HashedPassword
deriving DecidableEq, Repr

/-- Embeds `From<db::models::User> for SharedUser` (server/src/db/models.rs). -/
def sharedUserFromDb (u : DbUser) : Shared.User :=
  { id := u.id, username := u.username }

/-- Row of the `tests` table (server/src/db/models.rs `Test`). -/
structure DbTest where
  id : Int
  subject : String
  topic : Option String
  date_or_id : String
  qualification_level : Option String
  exam_board : Option String
  user_id : String
deriving DecidableEq, Repr

/-- Row of the `completions` table (server/src/db/models.rs `Completion`). -/
structure DbCompletion where
  id : Int
  achieved_mark : Int
  total_marks : Int
  date : NaiveDate
  comments : Option String
  test_id : Int
deriving DecidableEq, Repr

/-- The PostgreSQL database state: the three tables the server touches. -/
structure DbState where
  users : List DbUser
  tests : List DbTest
  completions : List DbCompletion
deriving DecidableEq, Repr

/-- An error that could occur when adding a new user
(server/src/passwords.rs `NewUserError`). -/
inductive NewUserError where
  /-- An error occured in accessing the DB. -/
  | DbError : DbError → NewUserError
  /-- An error occured when trying to hash the password. -/
  | HashingError : PwHashError → NewUserError
deriving DecidableEq, Repr

/-- Embeds `impl From<NewUserError> for SharedError` (server/src/passwords.rs
lines 54-63): a DB error becomes `DatabaseError`, a hashing-library error —
including the `Password` mismatch — becomes `HashingError` of its
formatted rendering. -/
def sharedErrorFromNewUserError : NewUserError → Shared.Error
  | .DbError e => .DatabaseError (dieselErrorFromDb e)
  | .HashingError e => .HashingError (formatPwHashError e)

/-- Embeds `hash_and_salt_password` (server/src/passwords.rs): hash and salt a
password for the first time. The 16 random bytes drawn inside the function
are passed in as the explicit `salt` argument; the idealized Argon2 model
always succeeds. -/
def hash_and_salt_password (password : String) (salt : String) :
    Except PwHashError HashedPassword :=
  .ok { salt := salt, digest := password }

/-- Embeds `Argon2::default().verify_password` of the external argon2 crate,
idealized: succeeds exactly when the supplied password is the one that was
hashed, failing with `Error::Password` otherwise. -/
def verify_password (password : String) (h : HashedPassword) :
    Except PwHashError Unit :=
  if h.digest = password then .ok () else .error .Password

/-- Embeds `str::to_lowercase` of the Rust standard library: lowercase every
character. (Char-wise lowering; written over the char list so it computes by
kernel reduction, unlike `String.toLower`, whose `mapAux` recursion is
well-founded and kernel-opaque.) -/
def toLowercase (s : String) : String := ⟨s.data.map Char.toLower⟩

/-- The diesel query `users.filter(username.eq(uname)).first::<DbUser>(conn)`:
first matching row, or `Err(NotFound)`. A SELECT leaves the database
unchanged, which the returned state records explicitly. -/
def selectFirstUserByUsername (db : DbState) (uname : String) :
    Except DbError DbUser × DbState :=
  match db.users.find? (fun u => u.username = uname) with
  | some u => (.ok u, db)
  | none => (.error .NotFound, db)

/-- The diesel `insert_into(users::table).values(&new_user).get_result(conn)`
against PostgreSQL. The `users` table constraints are the primary key on `id`
and — modelled from the spec, since the SQL migrations are not part of the
source tree — a uniqueness constraint on `username` ("`username` is unique
(enforced by the store)"). The server never supplies an `id`, so the
store-generated id is the explicit `fresh_id` argument. -/
def insertUser (db : DbState) (nu : NewUser) (fresh_id : String) :
    Except DbError DbUser × DbState :=
  if db.users.any (fun u => u.username = nu.username) then
    (.error (.UniqueViolation
        "duplicate key value violates unique constraint users_username_key"
        (some ("Key (username)=(" ++ nu.username ++ ") already exists."))
        none),
      db)
  else if db.users.any (fun u => u.id = fresh_id) then
    (.error (.UniqueViolation
        "duplicate key value violates unique constraint users_pkey"
        (some ("Key (id)=(" ++ fresh_id ++ ") already exists."))
        none),
      db)
  else
    let u : DbUser :=
      { id := fresh_id, username := nu.username, hashed_password := nu.hashed_password }
    (.ok u, { db with users := db.users ++ [u] })

/-- Embeds `validate_user` (server/src/passwords.rs lines 66-83): look up the user by
lowercased username, parse the stored hash (always parseable in the model),
verify the password, and return the public projection of the stored row. -/
def validate_user (db : DbState) (username password : String) :
    Except NewUserError Shared.User × DbState :=
  match selectFirstUserByUsername db (toLowercase username) with
  | (.error e, db1) => (.error (.DbError e), db1)
  | (.ok u, db1) =>
    match verify_password password u.hashed_password with
    | .error e => (.error (.HashingError e), db1)
    | .ok _ => (.ok { id := u.id, username := u.username }, db1)

/-- Embeds `add_new_user` (server/src/passwords.rs lines 86-100): hash the password,
insert a new row with the lowercased username, and return its public
projection. `salt` and `fresh_id` make the two sources of external
nondeterminism (RNG, store id generation) explicit. -/
def add_new_user (db : DbState) (username password salt fresh_id : String) :
    Except NewUserError Shared.User × DbState :=
  match hash_and_salt_password password salt with
  | .error e => (.error (.HashingError e), db)
  | .ok hashed_password =>
    match insertUser db { username := toLowercase username, hashed_password } fresh_id with
    | (.error e, db1) => (.error (.DbError e), db1)
    | (.ok user, db1) => (.ok (sharedUserFromDb user), db1)

/-- The serde data model as exercised by the message types: the shapes the
`ron` text format preserves faithfully (named-field structs/variants, tagged
unions, tuples, options, sequences, strings, integers). Dates keep their own
leaf: their text form belongs to chrono, external to this repository. -/
inductive Value where
  | str : String → Value
  | int : Int → Value
  | date : NaiveDate → Value
  | optionV : Option Value → Value
  | listV : List Value → Value
  | tupleV : List Value → Value
  | unitVariant : String → Value
  | tupleVariant : String → List Value → Value
  | structVariant : String → List (String × Value) → Value
  | record : List (String × Value) → Value

/-- Serialize an `Option<String>`. -/
def optStrToValue (o : Option String) : Value := .optionV (o.map .str)

/-- Deserialize an `Option<String>`. -/
def optStrFromValue : Value → Option (Option String)
  | .optionV none => some none
  | .optionV (some (.str s)) => some (some s)
  | _ => none

/-- Serialize an `Option<NaiveDate>`. -/
def optDateToValue (o : Option NaiveDate) : Value := .optionV (o.map .date)

/-- Deserialize an `Option<NaiveDate>`. -/
def optDateFromValue : Value → Option (Option NaiveDate)
  | .optionV none => some none
  | .optionV (some (.date d)) => some (some d)
  | _ => none

/-- Serialize a `Result<T, E>`: serde renders it as the two-variant enum
`Ok(T) | Err(E)`. -/
def resultToValue (fa : α → Value) (fe : ε → Value) : Except ε α → Value
  | .ok a => .tupleVariant "Ok" [fa a]
  | .error e => .tupleVariant "Err" [fe e]

/-- Deserialize a `Result<T, E>`. -/
def resultFromValue (ga : Value → Option α) (ge : Value → Option ε) :
    Value → Option (Except ε α)
  | .tupleVariant "Ok" [v] => (ga v).map .ok
  | .tupleVariant "Err" [v] => (ge v).map .error
  | _ => none

/-- Deserialize each element of a serialized sequence. -/
def decodeList (g : Value → Option α) : List Value → Option (List α)
  | [] => some []
  | v :: vs => do
    let a ← g v
    let as ← decodeList g vs
    pure (a :: as)

namespace Shared

/-- Serialize a `User`. -/
def userToValue (u : User) : Value :=
  .record [("id", .str u.id), ("username", .str u.username)]

/-- Deserialize a `User`. -/
def userFromValue : Value → Option User
  | .record [("id", .str id), ("username", .str username)] =>
    some { id, username }
  | _ => none

/-- Serialize a `DieselError`. -/
def dieselErrorToValue : DieselError → Value
  | .NotFound => .unitVariant "NotFound"
  | .UniqueViolation m d h =>
    .tupleVariant "UniqueViolation" [.str m, optStrToValue d, optStrToValue h]
  | .Other s => .tupleVariant "Other" [.str s]

/-- Deserialize a `DieselError`. -/
def dieselErrorFromValue : Value → Option DieselError
  | .unitVariant "NotFound" => some .NotFound
  | .tupleVariant "UniqueViolation" [.str m, d, h] => do
    let d' ← optStrFromValue d
    let h' ← optStrFromValue h
    pure (.UniqueViolation m d' h')
  | .tupleVariant "Other" [.str s] => some (.Other s)
  | _ => none

/-- Serialize a shared `Error`. -/
def errorToValue : Error → Value
  | .DatabaseError e => .tupleVariant "DatabaseError" [dieselErrorToValue e]
  | .InvalidPassword => .unitVariant "InvalidPassword"
  | .HashingError s => .tupleVariant "HashingError" [.str s]

/-- Deserialize a shared `Error`. -/
def errorFromValue : Value → Option Error
  | .tupleVariant "DatabaseError" [v] => (dieselErrorFromValue v).map .DatabaseError
  | .unitVariant "InvalidPassword" => some .InvalidPassword
  | .tupleVariant "HashingError" [.str s] => some (.HashingError s)
  | _ => none

/-- Serialize a shared `TestData`. -/
def testDataToValue (t : TestData) : Value :=
  .record
    [ ("subject", .str t.subject),
      ("topic", optStrToValue t.topic),
      ("date_or_id", .str t.date_or_id),
      ("qualification_level", optStrToValue t.qualification_level),
      ("exam_board", optStrToValue t.exam_board),
      ("paper_link", optStrToValue t.paper_link),
      ("mark_scheme_link", optStrToValue t.mark_scheme_link),
      ("comments", optStrToValue t.comments) ]

/-- Deserialize a shared `TestData`. -/
def testDataFromValue : Value → Option TestData
  | .record
      [ ("subject", .str subject),
        ("topic", topic),
        ("date_or_id", .str date_or_id),
        ("qualification_level", qualification_level),
        ("exam_board", exam_board),
        ("paper_link", paper_link),
        ("mark_scheme_link", mark_scheme_link),
        ("comments", comments) ] => do
    let topic' ← optStrFromValue topic
    let qualification_level' ← optStrFromValue qualification_level
    let exam_board' ← optStrFromValue exam_board
    let paper_link' ← optStrFromValue paper_link
    let mark_scheme_link' ← optStrFromValue mark_scheme_link
    let comments' ← optStrFromValue comments
    pure
      { subject, topic := topic', date_or_id,
        qualification_level := qualification_level', exam_board := exam_board',
        paper_link := paper_link', mark_scheme_link := mark_scheme_link',
        comments := comments' }
  | _ => none

/-- Serialize a shared `CompletionData`. -/
def completionDataToValue (c : CompletionData) : Value :=
  .record
    [ ("achieved_mark", .int c.achieved_mark),
      ("total_marks", .int c.total_marks),
      ("date", optDateToValue c.date),
      ("comments", optStrToValue c.comments) ]

/-- Deserialize a shared `CompletionData`. -/
def completionDataFromValue : Value → Option CompletionData
  | .record
      [ ("achieved_mark", .int achieved_mark),
        ("total_marks", .int total_marks),
        ("date", date),
        ("comments", comments) ] => do
    let date' ← optDateFromValue date
    let comments' ← optStrFromValue comments
    pure { achieved_mark, total_marks, date := date', comments := comments' }
  | _ => none

/-- Serialize a `TestAndCompletions` tuple. -/
def tacToValue (tc : TestAndCompletions) : Value :=
  .tupleV [testDataToValue tc.1, .listV (tc.2.map completionDataToValue)]

/-- Deserialize a `TestAndCompletions` tuple. -/
def tacFromValue : Value → Option TestAndCompletions
  | .tupleV [td, .listV cs] => do
    let td' ← testDataFromValue td
    let cs' ← decodeList completionDataFromValue cs
    pure ((td', cs') : TestData × List CompletionData)
  | _ => none

end Shared

/-- Serialize a `ClientToServerMsg` (the request envelope). -/
def clientToServerMsgToValue : ClientToServerMsg → Value
  | .Authenticate username password =>
    .structVariant "Authenticate"
      [("username", .str username), ("password", .str password)]
  | .CreateUser username password =>
    .structVariant "CreateUser"
      [("username", .str username), ("password", .str password)]
  | .GetTestsAndCompletions user_id =>
    .structVariant "GetTestsAndCompletions" [("user_id", .str user_id)]

/-- Deserialize a `ClientToServerMsg`. -/
def clientToServerMsgFromValue : Value → Option ClientToServerMsg
  | .structVariant "Authenticate"
      [("username", .str username), ("password", .str password)] =>
    some (.Authenticate username password)
  | .structVariant "CreateUser"
      [("username", .str username), ("password", .str password)] =>
    some (.CreateUser username password)
  | .structVariant "GetTestsAndCompletions" [("user_id", .str user_id)] =>
    some (.GetTestsAndCompletions user_id)
  | _ => none

/-- Serialize a `ServerToClientMsg` (the response envelope). -/
def serverToClientMsgToValue : ServerToClientMsg → Value
  | .AuthenticationResponse r =>
    .tupleVariant "AuthenticationResponse"
      [resultToValue Shared.userToValue Shared.errorToValue r]
  | .TestsAndCompletionsForUser r =>
    .tupleVariant "TestsAndCompletionsForUser"
      [resultToValue (fun l => .listV (l.map Shared.tacToValue)) Shared.errorToValue r]

/-- Deserialize a `ServerToClientMsg`. -/
def serverToClientMsgFromValue : Value → Option ServerToClientMsg
  | .tupleVariant "AuthenticationResponse" [v] =>
    (resultFromValue Shared.userFromValue Shared.errorFromValue v).map
      .AuthenticationResponse
  | .tupleVariant "TestsAndCompletionsForUser" [v] =>
    (resultFromValue
        (fun w =>
          match w with
          | .listV vs => decodeList Shared.tacFromValue vs
          | _ => none)
        Shared.errorFromValue v).map
      .TestsAndCompletionsForUser
  | _ => none

namespace Server

/-- The important data of the test (server/src/tests_and_completions.rs
`TestData` — note: distinct from the `TestData` of the shared crate; only these
five displayed fields, no primary key). -/
structure TestData where
  subject : String
  topic : Option String
  date_or_id : String
  qualification_level : Option String
  exam_board : Option String
deriving DecidableEq, Repr

/-- Embeds `From<Test> for TestData` (server/src/tests_and_completions.rs). -/
def TestData.ofTest (t : DbTest) : TestData :=
  { subject := t.subject, topic := t.topic, date_or_id := t.date_or_id,
    qualification_level := t.qualification_level, exam_board := t.exam_board }

/-- The important data of the completion (server/src/tests_and_completions.rs
`CompletionData`). -/
structure CompletionData where
  achieved_mark : Int
  total_marks : Int
  date : NaiveDate
  comments : Option String
deriving DecidableEq, Repr

/-- Embeds `From<Completion> for CompletionData` (server/src/tests_and_completions.rs). -/
def CompletionData.ofCompletion (c : DbCompletion) : CompletionData :=
  { achieved_mark := c.achieved_mark, total_marks := c.total_marks,
    date := c.date, comments := c.comments }

end Server

/-- The rows produced by the diesel query
`users.inner_join(tests.inner_join(completions)).filter(users::id.eq(user_id))`
with the join keys of db/schema.rs (`tests.user_id -> users.id`,
`completions.test_id -> tests.id`). SQL row order is unspecified; the model
fixes one order, which no settled claim depends on. -/
def joinRows (db : DbState) (user_id : String) : List (DbTest × DbCompletion) :=
  (db.users.filter (fun u => u.id = user_id)).flatMap (fun u =>
    (db.tests.filter (fun t => t.user_id = u.id)).flatMap (fun t =>
      (db.completions.filter (fun c => c.test_id = t.id)).map (fun c => (t, c))))

/-- One step of the grouping loop in `get_all_tests_and_completions_for_user`:
`match map.get_mut(&test)` — push onto the existing entry for this `TestData`
key, or insert a fresh singleton entry. The `HashMap` is modelled as an
association list keyed by `Server.TestData` (structural equality, exactly as
`HashMap<TestData, _>` hashes the full struct). -/
def updateMap (m : List (Server.TestData × List Server.CompletionData))
    (td : Server.TestData) (cd : Server.CompletionData) :
    List (Server.TestData × List Server.CompletionData) :=
  if m.any (fun p => p.1 = td) then
    m.map (fun p => if p.1 = td then (p.1, p.2 ++ [cd]) else p)
  else
    m ++ [(td, [cd])]

/-- Embeds `get_all_tests_and_completions_for_user` (server/src/tests_and_completions.rs
lines 91-119): load the joined rows, convert each to `(TestData,
CompletionData)`, fold them into the map, and collect it. The store is assumed
reachable (`establish_connection` panics rather than returning an error), so
the load's `Result` is always `Ok` and the model returns the list directly. -/
def get_all_tests_and_completions_for_user (db : DbState) (user_id : String) :
    List (Server.TestData × List Server.CompletionData) :=
  ((joinRows db user_id).map
      (fun tc => (Server.TestData.ofTest tc.1, Server.CompletionData.ofCompletion tc.2))).foldl
    (fun m p => updateMap m p.1 p.2) []

/-- An HTTP response as assembled by the handler: `Response::from_string`
yields status 200, `with_header` attaches headers. The body holds the
serialized message at the serde-value level. -/
structure HttpResponse where
  statusCode : Nat
  body : Value
  headers : List (String × String)

/-- Embeds `no_cors_header` (server/src/main.rs lines 14-23):
the `Access-Control-Allow-Origin: *` header. -/
def no_cors_header : String × String := ("Access-Control-Allow-Origin", "*")

/-- Embeds `handle_request` (server/src/main.rs lines 27-68), after the body has been
read and decoded into a `ClientToServerMsg`. In the source, `match msg` has arms
only for `Authenticate` and `CreateUser`; it has no arm at all for
`GetTestsAndCompletions` (and as written would not even be an exhaustive
match), so the model produces no response there. `salt` and `fresh_id` thread
the external nondeterminism of the create path. -/
def handle_request (db : DbState) (msg : ClientToServerMsg)
    (salt fresh_id : String) : Option HttpResponse × DbState :=
  match msg with
  | .Authenticate username password =>
    let (validation_result, db1) := validate_user db username password
    (some
        { statusCode := 200,
          body := serverToClientMsgToValue
            (.AuthenticationResponse
              (validation_result.mapError sharedErrorFromNewUserError)),
          headers := [no_cors_header] },
      db1)
  | .CreateUser username password =>
    let (add_new_user_result, db1) := add_new_user db username password salt fresh_id
    (some
        { statusCode := 200,
          body := serverToClientMsgToValue
            (.AuthenticationResponse
              (add_new_user_result.mapError sharedErrorFromNewUserError)),
          headers := [no_cors_header] },
      db1)
  | .GetTestsAndCompletions _ => (none, db)

/-- The key for the user key in browser storage (client/src/main.rs). -/
def STORAGE_KEY_USER : String := "testTrackerUser"

/-- A browser key-value store (`localStorage` / `sessionStorage`). Values are
the stored serialized forms, kept at the serde-value level. -/
abbrev BrowserStorage : Type := List (String × Value)

/-- Embeds `Storage::set_item`: overwrite the value under `k`, or append it. -/
def setItem (st : BrowserStorage) (k : String) (v : Value) : BrowserStorage :=
  if st.any (fun p => p.1 = k) then
    st.map (fun p => if p.1 = k then (k, v) else p)
  else
    st ++ [(k, v)]

/-- Embeds `Storage::get_item`. -/
def getItem (st : BrowserStorage) (k : String) : Option Value :=
  (st.find? (fun p => p.1 = k)).map (fun p => p.2)

/-- The two browser stores the client uses: `localStorage` is the durable
store, `sessionStorage` the session-scoped one. -/
structure Browser where
  localStorage : BrowserStorage
  sessionStorage : BrowserStorage

/-- Embeds `get_item_from_storage` (client/src/web.rs): fetch and deserialize. -/
def get_item_from_storage (g : Value → Option α) (st : BrowserStorage)
    (key : String) : Option α :=
  (getItem st key).bind g

/-- Embeds `get_user` (client/src/web.rs lines 42-48): try `localStorage`, then
`sessionStorage` for the stored user. -/
def get_user (br : Browser) : Option Shared.User :=
  match get_item_from_storage Shared.userFromValue br.localStorage STORAGE_KEY_USER with
  | some user => some user
  | none =>
    get_item_from_storage Shared.userFromValue br.sessionStorage STORAGE_KEY_USER

/-- The model for the whole web app (client/src/main.rs `App`). -/
structure AppState where
  user : Option Shared.User
  tests_and_completions : List Shared.TestAndCompletions
  error_message : Option String

/-- A message to send to the app (client/src/main.rs `AppMsg`). A boxed
`dyn Error` carries only its rendering here. -/
inductive AppMsg where
  /-- Manually change or reset the internal error message. -/
  | ChangeErrorMessage : Option String → AppMsg
  /-- An error from the server has occured. -/
  | SharedError : Shared.Error → AppMsg
  /-- An unknown error has occured. -/
  | UnknownError : String → AppMsg
  /-- We received an unexpected (but valid) message from the server. -/
  | UnexpectedServerMsg : ServerToClientMsg → AppMsg
  /-- Authenticate a user; the bool reflects the remember-me checkbox. -/
  | AuthenticateUser : Shared.User → Bool → AppMsg
  /-- Set the list of tests and completions. -/
  | SetTestsAndCompletionsList : List Shared.TestAndCompletions → AppMsg

/-- Observable side effects of one `App::update` step: `window().alert` texts
and requests issued to the server. -/
structure ClientEffects where
  alerts : List String
  sent : List ClientToServerMsg

/-- No observable side effects. -/
def noEffects : ClientEffects := { alerts := [], sent := [] }

/-- Debug rendering of a `ServerToClientMsg` (`format!` in the source);
approximated by the variant name, which no settled claim inspects. -/
def formatServerToClientMsg : ServerToClientMsg → String
  | .AuthenticationResponse _ => "AuthenticationResponse(..)"
  | .TestsAndCompletionsForUser _ => "TestsAndCompletionsForUser(..)"

/-- Debug rendering of a shared `Error` for the generic alert branch;
approximated, no settled claim inspects the text. -/
def formatSharedError : Shared.Error → String
  | .DatabaseError .NotFound => "DatabaseError(NotFound)"
  | .DatabaseError (.UniqueViolation m _ _) => "DatabaseError(UniqueViolation(" ++ m ++ "))"
  | .DatabaseError (.Other s) => "DatabaseError(Other(" ++ s ++ "))"
  | .InvalidPassword => "InvalidPassword"
  | .HashingError s => "HashingError(" ++ s ++ ")"

/-- Substring test, as Rust's `str::contains(&str)`. -/
def strContains (s sub : String) : Bool :=
  (List.range (s.length + 1)).any (fun i => sub.isPrefixOf (s.drop i))

/-- Embeds `App::update` (client/src/main.rs lines 271-342). Every arm of the source
returns `true` (re-render), which the model does not track. The
`AuthenticateUser` arm serializes the user, always writes it to
`sessionStorage` under `STORAGE_KEY_USER`, writes it to `localStorage` too
exactly when remember-me is set, enters the logged-in state, clears the list
and the error message, and refreshes the list, which issues
`GetTestsAndCompletions` with the id of the user. -/
def update (app : AppState) (br : Browser) (msg : AppMsg) :
    AppState × Browser × ClientEffects :=
  match msg with
  | .AuthenticateUser user remember_me =>
    let user_str := Shared.userToValue user
    let br1 :=
      { br with sessionStorage := setItem br.sessionStorage STORAGE_KEY_USER user_str }
    let br2 :=
      if remember_me then
        { br1 with localStorage := setItem br1.localStorage STORAGE_KEY_USER user_str }
      else br1
    ({ user := some user, error_message := none, tests_and_completions := [] },
      br2,
      { alerts := [], sent := [.GetTestsAndCompletions user.id] })
  | .SetTestsAndCompletionsList l =>
    ({ app with tests_and_completions := l }, br, noEffects)
  | .ChangeErrorMessage m =>
    ({ app with error_message := m }, br, noEffects)
  | .UnexpectedServerMsg m =>
    ({ app with error_message := some (formatServerToClientMsg m) }, br, noEffects)
  | .SharedError e =>
    match e with
    | .DatabaseError .NotFound =>
      ({ app with error_message := some "Invalid username or password" }, br, noEffects)
    | .InvalidPassword =>
      ({ app with error_message := some "Invalid username or password" }, br, noEffects)
    | .DatabaseError (.UniqueViolation m details h) =>
      if (details.map (fun s => strContains s "username")).getD false then
        ({ app with error_message := some "Username already taken" }, br, noEffects)
      else
        (app, br,
          { alerts :=
              ["Error: " ++ formatSharedError (.DatabaseError (.UniqueViolation m details h))],
            sent := [] })
    | err =>
      (app, br, { alerts := ["Error: " ++ formatSharedError err], sent := [] })
  | .UnknownError s =>
    (app, br, { alerts := ["Unknown error: " ++ s], sent := [] })

/-- The `onsubmit` callback generated by `onsubmit_login_or_create_account!`
with `send_message_to_server!` (client/src/main.rs lines 96-177): for a blank
username or password the pre-send block early-returns the
`ChangeErrorMessage` app message and no request is issued; otherwise the
built message is posted to the server. The continuation that maps the
response back into an `AppMsg` is driven by `update` when it arrives and is
not part of the result of this function. Note: in the assembled client this
callback is only ever emitted from the `Submit` arm of the login form
component (see `create_onsubmit_callback` below), which already intercepts
blank submissions, so the blank branch here is unreachable for blank
inputs reaching the form. -/
def onsubmit_login_or_create_account
    (mk : String → String → ClientToServerMsg) (username password : String) :
    Option AppMsg × Option ClientToServerMsg :=
  if username.isEmpty || password.isEmpty then
    (some (.ChangeErrorMessage (some "Please enter a username or password")), none)
  else
    (none, some (mk username password))

/-- The tabs for logging in or creating a new account
(client/src/comps/login_form.rs `LoginOrCreateAccountTab`). -/
inductive LoginOrCreateAccountTab where
  /-- Login. -/
  | Login : LoginOrCreateAccountTab
  /-- Create a new account. -/
  | CreateAccount : LoginOrCreateAccountTab
deriving DecidableEq, Repr

/-- A message type for the login form component
(client/src/comps/login_form.rs `LoginOrCreateAccountMsg`). -/
inductive LoginOrCreateAccountMsg where
  /-- Change to the specified tab. -/
  | ChangeTab : LoginOrCreateAccountTab → LoginOrCreateAccountMsg
  /-- Change (or clear) the current error message. -/
  | ChangeError : Option String → LoginOrCreateAccountMsg
  /-- Submit a login or create account request with the given parameters. -/
  | Submit : LoginOrCreateAccountTab → String × String × Bool → LoginOrCreateAccountMsg
deriving DecidableEq, Repr

/-- State of the login form component
(client/src/comps/login_form.rs `LoginOrCreateAccountForm`). -/
structure LoginOrCreateAccountForm where
  tab : LoginOrCreateAccountTab
  error : Option String
deriving DecidableEq, Repr

/-- Embeds `create_onsubmit_callback` (client/src/comps/login_form.rs lines
76-91): the callback the Submit button of `InternalLoginForm` fires. A blank
username or password becomes a `ChangeError` carrying exactly
"Please enter a username and password"; otherwise the parameters are
forwarded as a `Submit` message. -/
def create_onsubmit_callback (tab : LoginOrCreateAccountTab)
    (username password : String) (remember_me : Bool) : LoginOrCreateAccountMsg :=
  if username.isEmpty || password.isEmpty then
    .ChangeError (some "Please enter a username and password")
  else
    .Submit tab (username, password, remember_me)

/-- Embeds `LoginOrCreateAccountForm::update` (client/src/comps/login_form.rs
lines 176-197). The `ChangeError` arm stores the error, which the view then
surfaces as an `ErrorMessage`; only the `Submit` arm emits a parent prop
callback (`onsubmit_login` or `onsubmit_create_account` from main.rs), and
that emission is returned here so the caller can connect it. -/
def loginFormUpdate (form : LoginOrCreateAccountForm)
    (msg : LoginOrCreateAccountMsg) :
    LoginOrCreateAccountForm
      × Option (LoginOrCreateAccountTab × String × String × Bool) :=
  match msg with
  | .ChangeTab tab => ({ tab := tab, error := none }, none)
  | .ChangeError error => ({ form with error := error }, none)
  | .Submit tab (username, password, remember_me) =>
    (form, some (tab, username, password, remember_me))

/-- One press of the Submit button of the login/create-account form, wired as
in the source: `InternalLoginForm` fires the callback built by
`create_onsubmit_callback` (login_form.rs), the resulting message drives
`LoginOrCreateAccountForm::update`, and only its `Submit` arm emits the
parent callback generated by `onsubmit_login_or_create_account!` (main.rs),
whose own pre-send guard then runs before the POST. Returns the updated form
state, the immediate app message if any, and the request posted to the
server if any. -/
def submit_login_or_create_account (form : LoginOrCreateAccountForm)
    (mk : String → String → ClientToServerMsg) (tab : LoginOrCreateAccountTab)
    (username password : String) (remember_me : Bool) :
    LoginOrCreateAccountForm × Option AppMsg × Option ClientToServerMsg :=
  match loginFormUpdate form
      (create_onsubmit_callback tab username password remember_me) with
  | (form1, none) => (form1, none, none)
  | (form1, some (_, u, p, _)) =>
    let sent := onsubmit_login_or_create_account mk u p
    (form1, sent.1, sent.2)

/-!
Concrete fixtures used by witnesses and counterexamples.
-/

/-- A stored password hash for the password "correct-horse". -/
def hashCorrect : HashedPassword := { salt := "somesalt", digest := "correct-horse" }

/-- A database holding exactly one user, alice. -/
def dbAlice : DbState :=
  { users := [{ id := "id-1", username := "alice", hashed_password := hashCorrect }],
    tests := [], completions := [] }

/-- The public projection of alice. -/
def aliceUser : Shared.User := { id := "id-1", username := "alice" }

/-- A test owned by user u1. -/
def testOne : DbTest :=
  { id := 1, subject := "maths", topic := none, date_or_id := "Paper 1",
    qualification_level := none, exam_board := none, user_id := "u1" }

/-- A second persisted test agreeing with `testOne` on every displayed field
but with a different primary key. -/
def testTwo : DbTest := { testOne with id := 2 }

/-- A completion of `testOne`. -/
def compOne : DbCompletion :=
  { id := 1, achieved_mark := 50, total_marks := 60, date := ⟨2019, 6, 3⟩,
    comments := none, test_id := 1 }

/-- A completion of `testTwo`. -/
def compTwo : DbCompletion := { compOne with id := 2, test_id := 2 }

/-- The owner of the fixture tests. -/
def userOne : DbUser := { id := "u1", username := "user1", hashed_password := hashCorrect }

/-- Two distinct persisted tests with identical displayed fields, one
completion each. -/
def dbTwins : DbState :=
  { users := [userOne], tests := [testOne, testTwo], completions := [compOne, compTwo] }

/-- One user owning one test that has no completions. -/
def dbLonely : DbState :=
  { users := [userOne], tests := [testOne], completions := [] }

/-- The client app before any login. -/
def appStart : AppState := { user := none, tests_and_completions := [], error_message := none }

/-- Empty browser stores. -/
def brEmpty : Browser := { localStorage := [], sessionStorage := [] }

/-- The database state after adding user Bob to `dbAlice`. -/
def dbAfterAddBob : DbState := (add_new_user dbAlice "Bob" "pw" "salt2" "id-2").snd

/-- The response `handle_request` produces for a successful authentication of
alice against `dbAlice`. -/
def authRespFixture : HttpResponse :=
  { statusCode := 200,
    body := serverToClientMsgToValue
      (.AuthenticationResponse (.ok { id := "id-1", username := "alice" })),
    headers := [no_cors_header] }

/-- The user row `add_new_user db username password salt fresh_id` inserts on
success: lowercased username, the given salt, the idealized digest. -/
def insertedUser (username password salt fresh_id : String) : DbUser :=
  { id := fresh_id, username := toLowercase username,
    hashed_password := { salt := salt, digest := password } }

/-!
Helper lemmas shared by the claim theorems.
-/

theorem optStr_roundtrip (o : Option String) :
    optStrFromValue (optStrToValue o) = some o := by
  cases o <;> rfl

theorem optDate_roundtrip (o : Option NaiveDate) :
    optDateFromValue (optDateToValue o) = some o := by
  cases o <;> rfl

theorem decodeList_map (g : Value → Option α) (f : α → Value)
    (h : ∀ a, g (f a) = some a) (l : List α) :
    decodeList g (l.map f) = some l := by
  induction l with
  | nil => rfl
  | cons a l ih => simp [decodeList, h, ih]

theorem resultValue_roundtrip (fa : α → Value) (ga : Value → Option α)
    (fe : ε → Value) (ge : Value → Option ε)
    (ha : ∀ a, ga (fa a) = some a) (he : ∀ e, ge (fe e) = some e)
    (r : Except ε α) :
    resultFromValue ga ge (resultToValue fa fe r) = some r := by
  cases r <;> simp [resultToValue, resultFromValue, ha, he]

theorem user_roundtrip (u : Shared.User) :
    Shared.userFromValue (Shared.userToValue u) = some u := by
  cases u; rfl

theorem dieselError_roundtrip (e : Shared.DieselError) :
    Shared.dieselErrorFromValue (Shared.dieselErrorToValue e) = some e := by
  cases e <;>
    simp [Shared.dieselErrorToValue, Shared.dieselErrorFromValue, optStr_roundtrip]

theorem error_roundtrip (e : Shared.Error) :
    Shared.errorFromValue (Shared.errorToValue e) = some e := by
  cases e <;>
    simp [Shared.errorToValue, Shared.errorFromValue, dieselError_roundtrip]

theorem testData_roundtrip (t : Shared.TestData) :
    Shared.testDataFromValue (Shared.testDataToValue t) = some t := by
  cases t
  simp [Shared.testDataToValue, Shared.testDataFromValue, optStr_roundtrip]

theorem completionData_roundtrip (c : Shared.CompletionData) :
    Shared.completionDataFromValue (Shared.completionDataToValue c) = some c := by
  cases c
  simp [Shared.completionDataToValue, Shared.completionDataFromValue,
    optStr_roundtrip, optDate_roundtrip]

theorem tac_roundtrip (tc : Shared.TestAndCompletions) :
    Shared.tacFromValue (Shared.tacToValue tc) = some tc := by
  cases tc with
  | mk td cs =>
    simp [Shared.tacToValue, Shared.tacFromValue, testData_roundtrip,
      decodeList_map Shared.completionDataFromValue Shared.completionDataToValue
        completionData_roundtrip]

/-- C6: serializing and then deserializing reproduces the original value for
every value of the request envelope type (all three variants) and every value
of the response envelope type (including `Ok` and each `Err` arm of each
variant). -/
theorem envelope_serialization_roundtrip :
    (∀ m : ClientToServerMsg,
      clientToServerMsgFromValue (clientToServerMsgToValue m) = some m) ∧
    (∀ m : ServerToClientMsg,
      serverToClientMsgFromValue (serverToClientMsgToValue m) = some m) := by
  constructor
  · intro m; cases m <;> rfl
  · intro m
    cases m with
    | AuthenticationResponse r =>
      simp [serverToClientMsgToValue, serverToClientMsgFromValue,
        resultValue_roundtrip _ _ _ _ user_roundtrip error_roundtrip]
    | TestsAndCompletionsForUser r =>
      cases r with
      | ok l =>
        simp [serverToClientMsgToValue, serverToClientMsgFromValue,
          resultToValue, resultFromValue,
          decodeList_map Shared.tacFromValue Shared.tacToValue tac_roundtrip]
      | error e =>
        simp [serverToClientMsgToValue, serverToClientMsgFromValue,
          resultToValue, resultFromValue, error_roundtrip]

/-- C1: the claim says every request decoding to `GetTestsAndCompletions`
is delegated to the record store and answered with
`TestsAndCompletionsForUser`. The `match msg` of `handle_request`
(server/src/main.rs lines 34-65) has no arm for that variant, so the server
produces no response at all for it and leaves the store untouched; the record
store query `get_all_tests_and_completions_for_user` is never called. -/
theorem getTestsAndCompletions_request_unhandled :
    ∀ (db : DbState) (user_id salt fresh_id : String),
      handle_request db (.GetTestsAndCompletions user_id) salt fresh_id
        = (none, db) :=
  fun _ _ _ _ => rfl

/-- C2: the claim says a wrong password for an existing user fails with
`InvalidPassword`. In the code, `verify_password` fails with
`password_hash::Error::Password`, which `validate_user` wraps as
`NewUserError::HashingError`, and `From<NewUserError> for SharedError`
(server/src/passwords.rs lines 54-63) turns every `HashingError` — the
`Password` mismatch included — into `SharedError::HashingError(..)`, which is
a different variant from `InvalidPassword`. (The half of the claim that the
failure is never `NotFound` does hold: the user is found first.) -/
theorem wrong_password_yields_hashing_error :
    (validate_user dbAlice "alice" "wrong").fst
      = .error (.HashingError .Password) ∧
    sharedErrorFromNewUserError (.HashingError .Password)
      = .HashingError "invalid password (Password)" ∧
    ∀ s, Shared.Error.HashingError s ≠ Shared.Error.InvalidPassword :=
  ⟨rfl, rfl, fun _ h => Shared.Error.noConfusion h⟩

/-- C3: the claim says two distinct persisted tests agreeing on all displayed
fields yield two distinct groups. The code groups rows in a
`HashMap<TestData, Vec<CompletionData>>` whose key omits the primary key, so
`dbTwins` — two tests with different ids but identical displayed fields, one
completion each — collapses into a single group holding both completions. -/
theorem structurally_equal_tests_merged :
    (get_all_tests_and_completions_for_user dbTwins "u1").length = 1 ∧
    get_all_tests_and_completions_for_user dbTwins "u1"
      = [(Server.TestData.ofTest testOne,
          [Server.CompletionData.ofCompletion compOne,
           Server.CompletionData.ofCompletion compTwo])] := by
  constructor
  · rfl
  · rfl

/-- C7: for every login or create-account submission where the username or
the password is the empty string, the form-level guard in
`create_onsubmit_callback` (client/src/comps/login_form.rs lines 81-89)
intercepts the submission: the form surfaces exactly the message
"Please enter a username and password", no other app message is produced,
and nothing is posted to the server — the parent callback is never emitted,
so the pre-send guard inside `onsubmit_login_or_create_account!` (main.rs)
is not even reached. -/
theorem empty_fields_surface_message_no_network
    (form : LoginOrCreateAccountForm)
    (mk : String → String → ClientToServerMsg) (tab : LoginOrCreateAccountTab)
    (username password : String) (remember_me : Bool)
    (h : username = "" ∨ password = "") :
    submit_login_or_create_account form mk tab username password remember_me
      = ({ form with error := some "Please enter a username and password" },
         none, none) := by
  have hb : ("" : String).isEmpty = true := rfl
  rcases h with rfl | rfl <;>
    simp [submit_login_or_create_account, create_onsubmit_callback,
      loginFormUpdate, hb]

/-- Witness for `empty_fields_surface_message_no_network` at a concrete
blank-username submission on the login tab. -/
theorem empty_fields_surface_message_no_network_witness :
    submit_login_or_create_account { tab := .Login, error := none }
        ClientToServerMsg.Authenticate .Login "" "hunter2" false
      = ({ tab := .Login, error := some "Please enter a username and password" },
         none, none) :=
  empty_fields_surface_message_no_network { tab := .Login, error := none }
    ClientToServerMsg.Authenticate .Login "" "hunter2" false (Or.inl rfl)

/-- C5 counterexample: a successful authentication with remember-me unset
writes nothing to the durable `localStorage` (refuting "persists the
serialized User into the durable (local) store" on every success) while it
does write the user to the session-scoped store (refuting "persists into the
session-scoped store ... exactly when remember me was set"). -/
theorem auth_success_storage_roles_swapped :
    (update appStart brEmpty (.AuthenticateUser aliceUser false)).2.1.localStorage
      = [] ∧
    (update appStart brEmpty (.AuthenticateUser aliceUser false)).2.1.sessionStorage
      = [(STORAGE_KEY_USER, Shared.userToValue aliceUser)] :=
  ⟨rfl, rfl⟩

/-- C5 as amended: on every successful Authenticate or CreateUser response the
client enters the logged-in state with that user, persists the serialized User
into the session-scoped store under the fixed storage key, additionally
persists it into the durable (local) store under the same key exactly when
remember-me was set, and then issues `GetTestsAndCompletions` with the user's
id (clearing the displayed list and error message). -/
theorem auth_success_storage_and_refresh (app : AppState) (br : Browser)
    (user : Shared.User) (remember_me : Bool) :
    (update app br (.AuthenticateUser user remember_me)).1.user = some user ∧
    (update app br (.AuthenticateUser user remember_me)).1.error_message = none ∧
    (update app br (.AuthenticateUser user remember_me)).1.tests_and_completions
      = [] ∧
    (update app br (.AuthenticateUser user remember_me)).2.1.sessionStorage
      = setItem br.sessionStorage STORAGE_KEY_USER (Shared.userToValue user) ∧
    (update app br (.AuthenticateUser user remember_me)).2.1.localStorage
      = (if remember_me then
          setItem br.localStorage STORAGE_KEY_USER (Shared.userToValue user)
         else br.localStorage) ∧
    (update app br (.AuthenticateUser user remember_me)).2.2.sent
      = [.GetTestsAndCompletions user.id] := by
  cases remember_me <;> exact ⟨rfl, rfl, rfl, rfl, rfl, rfl⟩

/-- C8: every response `handle_request` sends — business success or failure —
carries the `Access-Control-Allow-Origin: *` header, is a transport-level
success (status 200, from `Response::from_string`), and embeds the business
result (`Ok` or typed error) inside the serialized
`AuthenticationResponse` payload. -/
theorem responses_have_cors_and_embed_result (db : DbState)
    (msg : ClientToServerMsg) (salt fresh_id : String) (resp : HttpResponse)
    (h : (handle_request db msg salt fresh_id).fst = some resp) :
    resp.headers = [no_cors_header] ∧ resp.statusCode = 200 ∧
    ∃ result, resp.body
      = serverToClientMsgToValue (.AuthenticationResponse result) := by
  cases msg with
  | Authenticate username password =>
    simp only [handle_request] at h
    cases h
    exact ⟨rfl, rfl, _, rfl⟩
  | CreateUser username password =>
    simp only [handle_request] at h
    cases h
    exact ⟨rfl, rfl, _, rfl⟩
  | GetTestsAndCompletions user_id =>
    simp only [handle_request] at h
    cases h

/-- Witness for `responses_have_cors_and_embed_result`: the concrete response
to authenticating alice against `dbAlice`. -/
theorem responses_have_cors_and_embed_result_witness :
    authRespFixture.headers = [no_cors_header] ∧
    authRespFixture.statusCode = 200 ∧
    ∃ result, authRespFixture.body
      = serverToClientMsgToValue (.AuthenticationResponse result) :=
  responses_have_cors_and_embed_result dbAlice
    (.Authenticate "alice" "correct-horse") "somesalt" "id-9" authRespFixture rfl

/-- C9: `validate_user` performs zero durable writes — for every input the
database state after the call is the one before it — and `add_new_user`
performs exactly one durable write on success: the state gains exactly the
inserted user row and nothing else changes. -/
theorem credential_ops_write_discipline :
    (∀ (db : DbState) (username password : String),
      (validate_user db username password).snd = db) ∧
    (∀ (db : DbState) (username password salt fresh_id : String)
        (res : Shared.User) (db' : DbState),
      add_new_user db username password salt fresh_id = (.ok res, db') →
      db'.users = db.users
        ++ [{ id := fresh_id, username := toLowercase username,
              hashed_password := { salt := salt, digest := password } }] ∧
      db'.tests = db.tests ∧ db'.completions = db.completions) := by
  constructor
  · intro db username password
    unfold validate_user selectFirstUserByUsername
    cases hf : db.users.find? (fun u => u.username = toLowercase username) with
    | none => simp [hf]
    | some u =>
      cases hv : verify_password password u.hashed_password with
      | error e => simp [hf, hv]
      | ok _ => simp [hf, hv]
  · intro db username password salt fresh_id res db' h
    unfold add_new_user hash_and_salt_password insertUser at h
    by_cases h1 : db.users.any (fun u => u.username = toLowercase username)
    · simp [h1] at h
    · by_cases h2 : db.users.any (fun u => u.id = fresh_id)
      · simp [h1, h2] at h
      · simp [h1, h2] at h
        obtain ⟨-, rfl⟩ := h
        exact ⟨rfl, rfl, rfl⟩

/-- Witness for `credential_ops_write_discipline`: authentication against
`dbAlice` leaves it unchanged, and successfully adding Bob appends exactly
his row. -/
theorem credential_ops_write_discipline_witness :
    (validate_user dbAlice "alice" "correct-horse").snd = dbAlice ∧
    (dbAfterAddBob.users = dbAlice.users
        ++ [{ id := "id-2", username := toLowercase "Bob",
              hashed_password := { salt := "salt2", digest := "pw" } }] ∧
      dbAfterAddBob.tests = dbAlice.tests ∧
      dbAfterAddBob.completions = dbAlice.completions) :=
  ⟨credential_ops_write_discipline.1 dbAlice "alice" "correct-horse",
    credential_ops_write_discipline.2 dbAlice "Bob" "pw" "salt2" "id-2"
      { id := "id-2", username := "bob" } dbAfterAddBob rfl⟩


/-- C4: for a username whose case-folded form is not yet stored (and a fresh
store-generated id), `add_new_user` succeeds, and `validate_user` with the
same credentials then succeeds and returns a user whose username is the
lowercased input username. -/
theorem create_then_authenticate_succeeds (db : DbState)
    (username password salt fresh_id : String)
    (hname : ∀ u ∈ db.users, ¬ u.username = toLowercase username)
    (hid : ∀ u ∈ db.users, ¬ u.id = fresh_id) :
    ∃ db', add_new_user db username password salt fresh_id
        = (.ok { id := fresh_id, username := toLowercase username }, db') ∧
      (validate_user db' username password).fst
        = .ok { id := fresh_id, username := toLowercase username } := by
  have hany1 : db.users.any (fun u => u.username = toLowercase username) = false := by
    apply List.any_eq_false.mpr
    intro u hu
    simpa using hname u hu
  have hany2 : db.users.any (fun u => u.id = fresh_id) = false := by
    apply List.any_eq_false.mpr
    intro u hu
    simpa using hid u hu
  refine
    ⟨{ db with users := db.users ++ [insertedUser username password salt fresh_id] },
      ?_, ?_⟩
  · unfold add_new_user hash_and_salt_password insertUser
    simp [hany1, hany2, sharedUserFromDb, insertedUser]
  · have hfindold :
        db.users.find? (fun u => u.username = toLowercase username) = none := by
      apply List.find?_eq_none.mpr
      intro u hu
      simpa using hname u hu
    have hfind :
        (db.users ++ [insertedUser username password salt fresh_id]).find?
            (fun u => u.username = toLowercase username)
          = some (insertedUser username password salt fresh_id) := by
      rw [List.find?_append, hfindold]
      simp [insertedUser]
    unfold validate_user selectFirstUserByUsername
    simp [hfind, hfindold, verify_password, insertedUser]

/-- Witness for `create_then_authenticate_succeeds`: creating Bob in `dbAlice`
and authenticating with the same credentials. -/
theorem create_then_authenticate_succeeds_witness :
    ∃ db', add_new_user dbAlice "Bob" "secret123" "salt3" "id-3"
        = (.ok { id := "id-3", username := toLowercase "Bob" }, db') ∧
      (validate_user db' "Bob" "secret123").fst
        = .ok { id := "id-3", username := toLowercase "Bob" } :=
  create_then_authenticate_succeeds dbAlice "Bob" "secret123" "salt3" "id-3"
    (by decide) (by decide)

theorem mem_keys_updateMap (m : List (Server.TestData × List Server.CompletionData))
    (td : Server.TestData) (cd : Server.CompletionData) (td' : Server.TestData) :
    td' ∈ (updateMap m td cd).map Prod.fst ↔ td' ∈ m.map Prod.fst ∨ td' = td := by
  unfold updateMap
  by_cases h : m.any (fun p => p.1 = td) = true
  · rw [if_pos h]
    have hk : (m.map (fun p => if p.1 = td then (p.1, p.2 ++ [cd]) else p)).map Prod.fst
        = m.map Prod.fst := by
      rw [List.map_map]
      apply List.map_congr_left
      intro p _
      by_cases hp : p.1 = td
      · simp [hp]
      · simp [hp]
    rw [hk]
    have htd : td ∈ m.map Prod.fst := by
      rcases List.any_eq_true.mp h with ⟨p, hp, hpe⟩
      simp only [decide_eq_true_eq] at hpe
      exact List.mem_map.mpr ⟨p, hp, hpe⟩
    constructor
    · exact Or.inl
    · rintro (hh | rfl)
      · exact hh
      · exact htd
  · rw [if_neg h]
    simp

theorem keys_foldl (rows : List (Server.TestData × Server.CompletionData))
    (m : List (Server.TestData × List Server.CompletionData))
    (td' : Server.TestData) :
    td' ∈ (rows.foldl (fun acc p => updateMap acc p.1 p.2) m).map Prod.fst
      ↔ td' ∈ m.map Prod.fst ∨ td' ∈ rows.map Prod.fst := by
  induction rows generalizing m with
  | nil => simp
  | cons r rows ih =>
    simp only [List.foldl_cons, ih, mem_keys_updateMap, List.map_cons, List.mem_cons]
    tauto

theorem updateMap_nonempty (m : List (Server.TestData × List Server.CompletionData))
    (td : Server.TestData) (cd : Server.CompletionData)
    (h : ∀ g ∈ m, g.2 ≠ []) :
    ∀ g ∈ updateMap m td cd, g.2 ≠ [] := by
  intro g hg
  unfold updateMap at hg
  by_cases hc : m.any (fun p => p.1 = td) = true
  · rw [if_pos hc] at hg
    rcases List.mem_map.mp hg with ⟨p, hp, rfl⟩
    by_cases hp1 : p.1 = td
    · simp [hp1]
    · simpa [hp1] using h p hp
  · rw [if_neg hc] at hg
    rcases List.mem_append.mp hg with hg | hg
    · exact h g hg
    · simp only [List.mem_singleton] at hg
      simp [hg]

theorem foldl_groups_nonempty (rows : List (Server.TestData × Server.CompletionData))
    (m : List (Server.TestData × List Server.CompletionData))
    (h : ∀ g ∈ m, g.2 ≠ []) :
    ∀ g ∈ rows.foldl (fun acc p => updateMap acc p.1 p.2) m, g.2 ≠ [] := by
  induction rows generalizing m with
  | nil => simpa using h
  | cons r rows ih =>
    intro g hg
    exact ih _ (updateMap_nonempty _ _ _ h) g hg

theorem mem_joinRows {db : DbState} {user_id : String} {p : DbTest × DbCompletion}
    (h : p ∈ joinRows db user_id) :
    p.1 ∈ db.tests ∧ p.1.user_id = user_id ∧ p.2 ∈ db.completions
      ∧ p.2.test_id = p.1.id := by
  unfold joinRows at h
  simp only [List.mem_flatMap, List.mem_filter, List.mem_map,
    decide_eq_true_eq] at h
  obtain ⟨u, ⟨hu, huid⟩, t, ⟨ht, hto⟩, c, ⟨hc, hct⟩, rfl⟩ := h
  exact ⟨ht, by rw [hto, huid], hc, hct⟩

/-- C10: a test owned by the user with zero completions does not appear at all
in the result of `get_all_tests_and_completions_for_user` — the inner join
drops its rows, so it is silently omitted rather than returned with an empty
completion list (no group of the result ever has an empty list). The
uniqueness hypothesis rules out an unrelated structurally-identical test
contributing the same displayed-field key. -/
theorem completionless_tests_omitted (db : DbState) (user_id : String)
    (t : DbTest) (_ht : t ∈ db.tests) (_howner : t.user_id = user_id)
    (hnocomp : ∀ c ∈ db.completions, ¬ c.test_id = t.id)
    (huniq : ∀ t' ∈ db.tests,
      Server.TestData.ofTest t' = Server.TestData.ofTest t → t' = t) :
    Server.TestData.ofTest t
        ∉ (get_all_tests_and_completions_for_user db user_id).map Prod.fst ∧
    ∀ g ∈ get_all_tests_and_completions_for_user db user_id, g.2 ≠ [] := by
  constructor
  · intro hmem
    unfold get_all_tests_and_completions_for_user at hmem
    rw [keys_foldl] at hmem
    rcases hmem with h | h
    · simp at h
    · rw [List.map_map] at h
      rcases List.mem_map.mp h with ⟨row, hrow, heq⟩
      obtain ⟨h1, h2, h3, h4⟩ := mem_joinRows hrow
      have ht' : row.1 = t := huniq row.1 h1 (by simpa using heq)
      exact hnocomp row.2 h3 (by rw [h4, ht'])
  · exact foldl_groups_nonempty _ _ (by simp)

/-- Witness for `completionless_tests_omitted`: `dbLonely` holds one test with
no completions; the query result omits it entirely. -/
theorem completionless_tests_omitted_witness :
    Server.TestData.ofTest testOne
        ∉ (get_all_tests_and_completions_for_user dbLonely "u1").map Prod.fst ∧
    ∀ g ∈ get_all_tests_and_completions_for_user dbLonely "u1", g.2 ≠ [] :=
  completionless_tests_omitted dbLonely "u1" testOne (by decide) (by decide)
    (by decide) (by decide)
